import Mathlib

/-
Verification development for the sandboxed execution core of the
Cpp-Mastery-Hub cpp-engine (src/cpp-engine/src/compiler/execution_engine.cpp).

Strings are modelled as lists of characters (abbrev Str).  OS behaviour that
the parent process observes (pipe creation success, fork success, the outcome
of waitpid, the bytes read back from the pipes) is supplied by explicit
oracle records, so every function of the embedding is a pure, executable
function of its inputs.  System calls issued by the runner are additionally
recorded in an event trace so that temporal claims (signal sequences, stdin
writes, child spawning) can be stated about the trace.
-/

namespace cpp_mastery

/-- Str models std::string as a list of characters. -/
abbrev Str := List Char

/-- startsWithTok tok s is true when tok occurs at position 0 of s
(the prefix test used to model std::string::find). -/
def startsWithTok : Str → Str → Bool
  | [], _ => true
  | _ :: _, [] => false
  | a :: xs, b :: ys => a = b && startsWithTok xs ys

/-- hasTok tok s models s.find(tok) != std::string::npos: tok occurs as a
contiguous substring of s. -/
def hasTok (tok : Str) : Str → Bool
  | [] => startsWithTok tok []
  | c :: rest => startsWithTok tok (c :: rest) || hasTok tok rest

/-- splitNl splits a character list at every newline character, keeping the
(possibly empty) segments between newlines; n newlines give n+1 segments. -/
def splitNl : Str → List Str
  | [] => [[]]
  | c :: rest =>
    match splitNl rest with
    | [] => [[]]
    | l :: ls => if c = '\n' then [] :: l :: ls else (c :: l) :: ls

/-- getlines models the std::getline loop of parseCompilerMessages
(execution_engine.cpp lines 492-495): it yields each line of the stream,
where a trailing newline does not start an extra empty line and an empty
stream yields no lines. -/
def getlines (s : Str) : List Str :=
  if s = [] then []
  else if s.getLast? = some '\n' then (splitNl s).dropLast
  else splitNl s

/-- digitChar gives the decimal digit character for n below 10. -/
def digitChar : Nat → Char
  | 0 => '0' | 1 => '1' | 2 => '2' | 3 => '3' | 4 => '4'
  | 5 => '5' | 6 => '6' | 7 => '7' | 8 => '8' | _ => '9'

/-- natToStrAux writes n in decimal, with fuel for termination. -/
def natToStrAux : Nat → Nat → Str
  | 0, _ => []
  | fuel + 1, n =>
    if n < 10 then [digitChar n]
    else natToStrAux fuel (n / 10) ++ [digitChar (n % 10)]

/-- natToStr writes a natural number in decimal. -/
def natToStr (n : Nat) : Str := natToStrAux (n + 1) n

/-- intToStr models std::to_string on int. -/
def intToStr : Int → Str
  | Int.ofNat n => natToStr n
  | Int.negSucc n => '-' :: natToStr (n + 1)

/-- ProcessResult mirrors struct ProcessResult of execution_engine.hpp
(lines 43-49): exit_code defaults to -1 and the resource fields are never
written by the engine, so they keep their 0 initialisers. -/
structure ProcessResult where
  exit_code : Int := -1
  stdout : Str := []
  stderr : Str := []
  memory_usage_kb : Int := 0
  cpu_time_ms : Int := 0
deriving DecidableEq

/-- CompilationResult mirrors struct CompilationResult of
execution_engine.hpp (lines 17-24). -/
structure CompilationResult where
  success : Bool := false
  executable_path : Str := []
  compilation_time_ms : Int := 0
  warnings : List Str := []
  errors : List Str := []
  compiler_output : Str := []
deriving DecidableEq

/-- ExecutionResult mirrors struct ExecutionResult of execution_engine.hpp
(lines 29-38).  Note that it has exactly these fields: in particular there is
no field recording whether the sandboxed or the direct path was used, and no
timed_out or resource-violation flag. -/
structure ExecutionResult where
  success : Bool := false
  exit_code : Int := 0
  stdout : Str := []
  stderr : Str := []
  execution_time_ms : Int := 0
  memory_usage_kb : Int := 0
  cpu_time_ms : Int := 0
  error_message : Str := []
deriving DecidableEq

/-- Sig enumerates the signals the parent can send; the source only ever
sends SIGTERM (execution_engine.cpp line 431). -/
inductive Sig | SIGTERM | SIGKILL
deriving DecidableEq

/-- PipeKind names the pipes executeProcess could create.  The source
creates only the stdout and stderr pipes (line 390); stdinPipe exists in the
model so that the absence of a stdin pipe is statable. -/
inductive PipeKind | stdoutPipe | stderrPipe | stdinPipe
deriving DecidableEq

/-- Event records the parent-side system calls of executeProcess in order.
writeStdin and closeStdinEnd are events the source never emits; they exist so
that claims about stdin handling can be stated about the trace. -/
inductive Event
  | pipeCall
  | forkCall
  | setAlarm (t : Int)
  | cancelAlarm
  | waitChild
  | sendSignal (s : Sig)
  | readPipe (k : PipeKind)
  | writeStdin
  | closeStdinEnd
deriving DecidableEq

/-- ChildAction enumerates what the forked child does before running user
code.  setrlimitCall exists in the model so that the absence of any rlimit
installation is statable. -/
inductive ChildAction
  | closeReadEnds
  | dupStdout
  | dupStderr
  | closeWriteEnds
  | setrlimitCall
  | execvpCall
deriving DecidableEq

/-- pipesCreated transcribes the pipe creation of executeProcess (line 390):
one pipe for stdout and one for stderr; no stdin pipe is ever created. -/
def pipesCreated : List PipeKind := [PipeKind.stdoutPipe, PipeKind.stderrPipe]

/-- childActions transcribes the child branch of executeProcess (lines
403-415): close read ends, dup2 the write ends onto stdout and stderr, close
the write ends, execvp.  No setrlimit call occurs before execvp. -/
def childActions : List ChildAction :=
  [ChildAction.closeReadEnds, ChildAction.dupStdout, ChildAction.dupStderr,
   ChildAction.closeWriteEnds, ChildAction.execvpCall]

/-- ProcOracle supplies the OS behaviour one executeProcess call observes:
whether pipe(2) and fork(2) succeed, whether waitpid returned -1 (the path
the source comments as timeout or other error), the raw wait status of the
child on the normal path, and the bytes drained from the two pipes. -/
structure ProcOracle where
  pipesOk : Bool
  forkOk : Bool
  waitFailed : Bool
  status : Nat
  childStdout : Str
  childStderr : Str
deriving DecidableEq

/-- WEXITSTATUS extracts bits 8-15 of a raw wait status, as the POSIX macro
used at execution_engine.cpp line 435 does. -/
def WEXITSTATUS (status : Nat) : Nat := status / 256 % 256

/-- executeProcess embeds ExecutionEngine::executeProcess
(execution_engine.cpp lines 375-457).  It returns the ProcessResult together
with the ordered trace of parent-side events.  Empty argv returns the
default result (exit_code -1) before any system call; pipe or fork failure
returns early; otherwise the parent sets an alarm, waits, and on wait
failure sends a single SIGTERM and reaps the child, reporting exit_code -1;
on wait success it reports WEXITSTATUS of the status.  Both post-fork paths
then drain the stdout and stderr pipes. -/
def executeProcess (args : List Str) (timeout_seconds : Int) (o : ProcOracle) :
    ProcessResult × List Event :=
  let result : ProcessResult := { exit_code := -1 }
  if args.isEmpty then
    (result, [])
  else if o.pipesOk = false then
    (result, [Event.pipeCall])
  else if o.forkOk = false then
    (result, [Event.pipeCall, Event.forkCall])
  else
    let pre := [Event.pipeCall, Event.forkCall, Event.setAlarm timeout_seconds,
                Event.waitChild, Event.cancelAlarm]
    if o.waitFailed then
      ({ result with exit_code := -1,
                     stdout := o.childStdout, stderr := o.childStderr },
       pre ++ [Event.sendSignal Sig.SIGTERM, Event.waitChild,
               Event.readPipe PipeKind.stdoutPipe, Event.readPipe PipeKind.stderrPipe])
    else
      ({ result with exit_code := Int.ofNat (WEXITSTATUS o.status),
                     stdout := o.childStdout, stderr := o.childStderr },
       pre ++ [Event.readPipe PipeKind.stdoutPipe, Event.readPipe PipeKind.stderrPipe])

/-- CompilerConfig carries the fields of Config::getCompilerConfig() that
execution_engine.cpp reads. -/
structure CompilerConfig where
  compiler_path : Str
  clang_path : Str
  default_compiler : Str
  cpp_standard : Str
  optimization_level : Str
  compilation_timeout : Int
deriving DecidableEq

/-- ExecutionConfig carries the fields of Config::getExecutionConfig() that
execution_engine.cpp reads. -/
structure ExecutionConfig where
  sandbox_enabled : Bool
  execution_timeout : Int
  max_memory_mb : Int
  max_cpu_time : Int
  docker_image : Str
deriving DecidableEq

/-- Config bundles the two configuration records the engine consults. -/
structure Config where
  compiler : CompilerConfig
  execution : ExecutionConfig
deriving DecidableEq

/-- FS models the shared temp root as the list of session directories that
currently exist on disk. -/
abbrev FS := List Str

/-- createDirectoriesFS models std::filesystem::create_directories for one
session directory: it adds the directory when absent. -/
def createDirectoriesFS (dir : Str) (fs : FS) : FS :=
  if dir ∈ fs then fs else fs ++ [dir]

/-- removeAllFS models std::filesystem::remove_all on one directory. -/
def removeAllFS (dir : Str) (fs : FS) : FS :=
  fs.filter (fun d => d != dir)

/-- cleanupSession embeds ExecutionEngine::cleanupSession
(execution_engine.cpp lines 504-512): remove the directory tree when it
exists, otherwise do nothing. -/
def cleanupSession (session_dir : Str) (fs : FS) : FS :=
  if session_dir ∈ fs then removeAllFS session_dir fs else fs

/-- parentPath models std::filesystem::path::parent_path on the paths the
engine builds: drop the final slash-separated component and its slash. -/
def parentPath (p : Str) : Str :=
  (((p.reverse).dropWhile (fun c => c != '/')).drop 1).reverse

/-- executeDirectly embeds ExecutionEngine::executeDirectly
(execution_engine.cpp lines 478-489): it runs the bare executable through
executeProcess under execution_timeout.  The input parameter is accepted but
never used, matching the TODO in the source that input handling and resource
monitoring are not implemented. -/
def executeDirectly (cfg : Config) (executable_path : Str) (input : Str)
    (o : ProcOracle) : ProcessResult × List Event :=
  executeProcess [executable_path] cfg.execution.execution_timeout o

/-- dockerRunArgs transcribes the docker argument vector built by
ExecutionEngine::executeInSandbox (execution_engine.cpp lines 462-471).  The
source constructs this vector and then discards it, falling back to direct
execution. -/
def dockerRunArgs (cfg : Config) (executable_path : Str) : List Str :=
  ["docker".data, "run".data, "--rm".data, "-i".data,
   "--memory=".data ++ intToStr cfg.execution.max_memory_mb ++ "m".data,
   "--cpus=".data ++ intToStr cfg.execution.max_cpu_time,
   "--network=none".data, "--user=nobody".data,
   "-v".data, executable_path ++ ":/app/program:ro".data,
   cfg.execution.docker_image, "/app/program".data]

/-- executeInSandbox embeds ExecutionEngine::executeInSandbox
(execution_engine.cpp lines 459-476): after building (and discarding) the
docker argument vector, the source unconditionally falls back to direct
execution — there is no availability check and no docker invocation. -/
def executeInSandbox (cfg : Config) (executable_path : Str) (input : Str)
    (o : ProcOracle) : ProcessResult × List Event :=
  executeDirectly cfg executable_path input o

/-- warningTok is the classification token for warnings. -/
def warningTok : Str := "warning:".data

/-- errorTok is the classification token for errors. -/
def errorTok : Str := "error:".data

/-- classifyLine is the loop body of parseCompilerMessages
(execution_engine.cpp lines 495-501): a line containing warning: is appended
to the warnings, otherwise a line containing error: is appended to the
errors, otherwise the line is dropped from both. -/
def classifyLine (acc : List Str × List Str) (line : Str) : List Str × List Str :=
  if hasTok warningTok line then (acc.1 ++ [line], acc.2)
  else if hasTok errorTok line then (acc.1, acc.2 ++ [line])
  else acc

/-- parseCompilerMessages embeds ExecutionEngine::parseCompilerMessages
(execution_engine.cpp lines 491-502), returning the (warnings, errors)
accumulated over the lines of the combined compiler output. -/
def parseCompilerMessages (compiler_output : Str) : List Str × List Str :=
  (getlines compiler_output).foldl classifyLine ([], [])

/-- buildCompileCommand embeds ExecutionEngine::buildCompileCommand
(execution_engine.cpp lines 326-373). -/
def buildCompileCommand (source_file output_file compiler standard
    optimization : Str) (debug_info : Bool) (extra_flags : List Str)
    (cfg : Config) : List Str :=
  (if compiler = "clang++".data then [cfg.compiler.clang_path]
   else [cfg.compiler.compiler_path])
  ++ [("-std=".data ++ standard), ("-".data ++ optimization)]
  ++ (if debug_info then ["-g".data] else [])
  ++ ["-Wall".data, "-Wextra".data, "-pedantic".data]
  ++ extra_flags
  ++ [source_file, "-o".data, output_file]

/-- CompileOptions models the recognised keys of the options json consumed
by compile (execution_engine.cpp lines 111-121); a missing key falls back to
the configuration default. -/
structure CompileOptions where
  compiler : Option Str := none
  standard : Option Str := none
  optimization : Option Str := none
  debug : Bool := false
  flags : List Str := []
deriving DecidableEq

/-- CompileOracle supplies the environment behaviour one compile call
observes: the random session id, whether create_directories throws (modelling
the internal-exception path of the surrounding try block), whether the
source-file ofstream opens, whether an exception is thrown between the file
write and the branch on the compiler exit code, the exception text, the
measured elapsed time, and the process oracle of the compiler run. -/
structure CompileOracle where
  session_id : Str
  dirCreateThrows : Bool
  fileOpenOk : Bool
  procThrows : Bool
  exMsg : Str
  elapsed_ms : Int
  proc : ProcOracle
deriving DecidableEq

/-- compile embeds ExecutionEngine::compile (execution_engine.cpp lines
83-158) as a function of the source text, the parsed options, the
configuration, the environment oracle and the filesystem.  It returns the
CompilationResult and the filesystem after the call. -/
def compile (code : Str) (opts : CompileOptions) (cfg : Config)
    (o : CompileOracle) (fs : FS) : CompilationResult × FS :=
  let result : CompilationResult := {}
  if o.dirCreateThrows then
    ({ result with errors := ["Internal compilation error: ".data ++ o.exMsg] }, fs)
  else
    let work_dir := "temp/".data ++ o.session_id
    let fs1 := createDirectoriesFS work_dir fs
    if o.fileOpenOk = false then
      ({ result with errors := ["Failed to create source file".data] }, fs1)
    else if o.procThrows then
      ({ result with errors := ["Internal compilation error: ".data ++ o.exMsg] }, fs1)
    else
      let source_file := work_dir ++ "/main.cpp".data
      let compiler := opts.compiler.getD cfg.compiler.default_compiler
      let standard := opts.standard.getD cfg.compiler.cpp_standard
      let optimization := opts.optimization.getD cfg.compiler.optimization_level
      let compile_args := buildCompileCommand source_file
          (work_dir ++ "/main".data) compiler standard optimization
          opts.debug opts.flags cfg
      let compile_result :=
        (executeProcess compile_args cfg.compiler.compilation_timeout o.proc).1
      let compiler_output := compile_result.stderr ++ compile_result.stdout
      let parsed := parseCompilerMessages compiler_output
      if compile_result.exit_code = 0 then
        ({ result with success := true,
                       executable_path := work_dir ++ "/main".data,
                       compilation_time_ms := o.elapsed_ms,
                       compiler_output := compiler_output,
                       warnings := parsed.1, errors := parsed.2 }, fs1)
      else
        ({ result with success := false,
                       compilation_time_ms := o.elapsed_ms,
                       compiler_output := compiler_output,
                       warnings := parsed.1, errors := parsed.2 }, fs1)

/-- ExecuteOracle supplies the environment behaviour one execute call
observes: the compile-stage oracle, the process oracle of the program run,
whether an exception is thrown after the program run but before the session
cleanup, the exception text and the measured elapsed time. -/
structure ExecuteOracle where
  comp : CompileOracle
  exec : ProcOracle
  execThrows : Bool
  exMsg : Str
  elapsed_ms : Int
deriving DecidableEq

/-- ExecuteOutput packages what one execute call produces: the
ExecutionResult handed to the caller, the filesystem after the call, and
whether the execution stage (sandboxed or direct) was invoked at all. -/
structure ExecuteOutput where
  result : ExecutionResult
  fs : FS
  execCalled : Bool
deriving DecidableEq

/-- execute embeds ExecutionEngine::execute (execution_engine.cpp lines
160-217): compile first; on compile failure return early with success false
and the error message built from the compile diagnostics, never invoking the
execution stage; on compile success run the executable through the sandboxed
or direct path depending on configuration, populate the result fields, set
error_message for a silent nonzero exit, and clean up the session directory
derived from the parent path of the executable. -/
def execute (code : Str) (input : Str) (opts : CompileOptions) (cfg : Config)
    (o : ExecuteOracle) (fs : FS) : ExecuteOutput :=
  let result : ExecutionResult := {}
  let cres := compile code opts cfg o.comp fs
  let compile_result := cres.1
  let fs1 := cres.2
  if compile_result.success = false then
    let failed : ExecutionResult :=
      { result with
        success := false,
        error_message := compile_result.errors.foldl
          (fun m e => m ++ "\n".data ++ e) "Compilation failed".data }
    { result := failed, fs := fs1, execCalled := false }
  else
    let exec_result :=
      (if cfg.execution.sandbox_enabled then
        executeInSandbox cfg compile_result.executable_path input o.exec
      else
        executeDirectly cfg compile_result.executable_path input o.exec).1
    if o.execThrows then
      let faulted : ExecutionResult :=
        { result with
          error_message := "Internal execution error: ".data ++ o.exMsg }
      { result := faulted, fs := fs1, execCalled := true }
    else
      let result := { result with
          success := exec_result.exit_code == 0,
          exit_code := exec_result.exit_code,
          stdout := exec_result.stdout,
          stderr := exec_result.stderr,
          memory_usage_kb := exec_result.memory_usage_kb,
          cpu_time_ms := exec_result.cpu_time_ms,
          execution_time_ms := o.elapsed_ms }
      let result :=
        if !result.success && result.stderr.isEmpty then
          { result with error_message :=
              "Program exited with code ".data ++ intToStr result.exit_code }
        else result
      let fs2 := cleanupSession (parentPath compile_result.executable_path) fs1
      { result := result, fs := fs2, execCalled := true }

/-- sampleCfg is a concrete configuration used by concrete evaluations; the
flag selects sandbox_enabled. -/
def sampleCfg (sandbox : Bool) : Config :=
  { compiler :=
      { compiler_path := "/usr/bin/g++".data,
        clang_path := "/usr/bin/clang++".data,
        default_compiler := "g++".data,
        cpp_standard := "c++17".data,
        optimization_level := "O2".data,
        compilation_timeout := 30 },
    execution :=
      { sandbox_enabled := sandbox,
        execution_timeout := 5,
        max_memory_mb := 256,
        max_cpu_time := 2,
        docker_image := "cpp-mastery-sandbox".data } }

/-- procTimedOut is a process oracle on which waitpid fails, the path the
source treats as a timeout. -/
def procTimedOut : ProcOracle :=
  { pipesOk := true, forkOk := true, waitFailed := true, status := 0,
    childStdout := [], childStderr := [] }

/-- procExitWith is a process oracle on which the child exits normally with
the given raw wait status and pipe contents. -/
def procExitWith (status : Nat) (out err : Str) : ProcOracle :=
  { pipesOk := true, forkOk := true, waitFailed := false, status := status,
    childStdout := out, childStderr := err }

/-- compOracle is a compile oracle on which the environment misbehaves in no
way: the directory is created, the source file opens, nothing throws. -/
def compOracle (sid : Str) (p : ProcOracle) : CompileOracle :=
  { session_id := sid, dirCreateThrows := false, fileOpenOk := true,
    procThrows := false, exMsg := [], elapsed_ms := 7, proc := p }

/-- execOracle is an execute oracle with no exception after the program
run. -/
def execOracle (c : CompileOracle) (p : ProcOracle) : ExecuteOracle :=
  { comp := c, exec := p, execThrows := false, exMsg := [], elapsed_ms := 9 }

/-- sampleCode is a stand-in source text; the embedding never inspects it. -/
def sampleCode : Str := "int main();".data

theorem startsWithTok_self : ∀ s : Str, startsWithTok s s = true
  | [] => rfl
  | c :: rest => by simp [startsWithTok, startsWithTok_self rest]

theorem startsWithTok_append (t : Str) :
    ∀ (s r : Str), startsWithTok t s = true → startsWithTok t (s ++ r) = true := by
  induction t with
  | nil => intro s r _; rfl
  | cons a ts ih =>
    intro s r h
    cases s with
    | nil => simp [startsWithTok] at h
    | cons b s2 =>
      simp [startsWithTok] at h ⊢
      exact ⟨h.1, ih s2 r h.2⟩

theorem hasTok_nil_tok : ∀ s : Str, hasTok [] s = true
  | [] => rfl
  | _ :: rest => by simp [hasTok, startsWithTok]

theorem hasTok_append_left (t : Str) :
    ∀ (s r : Str), hasTok t s = true → hasTok t (s ++ r) = true := by
  intro s
  induction s with
  | nil =>
    intro r h
    cases t with
    | nil => exact hasTok_nil_tok r
    | cons a ts => simp [hasTok, startsWithTok] at h
  | cons c s2 ih =>
    intro r h
    simp only [hasTok, Bool.or_eq_true] at h ⊢
    rcases h with h | h
    · exact Or.inl (startsWithTok_append t (c :: s2) r h)
    · exact Or.inr (ih r h)

theorem hasTok_append_right (t : Str) :
    ∀ (r s : Str), hasTok t s = true → hasTok t (r ++ s) = true := by
  intro r
  induction r with
  | nil => intro s h; exact h
  | cons c r2 ih =>
    intro s h
    simp only [List.cons_append, hasTok, Bool.or_eq_true]
    exact Or.inr (ih s h)

theorem hasTok_self : ∀ t : Str, hasTok t t = true
  | [] => rfl
  | c :: rest => by simp [hasTok, startsWithTok_self]

theorem hasTok_errFold (e : Str) :
    ∀ (l : List Str) (acc : Str), hasTok e acc = true →
      hasTok e (l.foldl (fun m x => m ++ "\n".data ++ x) acc) = true := by
  intro l
  induction l with
  | nil => intro acc h; exact h
  | cons x xs ih =>
    intro acc h
    rw [List.foldl_cons]
    exact ih (acc ++ "\n".data ++ x)
      (hasTok_append_left e (acc ++ "\n".data) x (hasTok_append_left e acc ("\n".data) h))

theorem mem_hasTok_errFold (e : Str) :
    ∀ (l : List Str) (acc : Str), e ∈ l →
      hasTok e (l.foldl (fun m x => m ++ "\n".data ++ x) acc) = true := by
  intro l
  induction l with
  | nil => intro acc h; cases h
  | cons x xs ih =>
    intro acc h
    rw [List.foldl_cons]
    rcases List.mem_cons.mp h with h | h
    · subst h
      refine hasTok_errFold e xs (acc ++ "\n".data ++ e) ?_
      exact hasTok_append_right e (acc ++ "\n".data) e (hasTok_self e)
    · exact ih (acc ++ "\n".data ++ x) h

theorem startsWithTok_errFold (p : Str) :
    ∀ (l : List Str) (acc : Str), startsWithTok p acc = true →
      startsWithTok p (l.foldl (fun m x => m ++ "\n".data ++ x) acc) = true := by
  intro l
  induction l with
  | nil => intro acc h; exact h
  | cons x xs ih =>
    intro acc h
    rw [List.foldl_cons]
    exact ih (acc ++ "\n".data ++ x)
      (startsWithTok_append p (acc ++ "\n".data) x (startsWithTok_append p acc ("\n".data) h))

theorem classifyLine_foldl (lines : List Str) :
    ∀ (ws es : List Str),
      lines.foldl classifyLine (ws, es) =
        (ws ++ lines.filter (fun l => hasTok warningTok l),
         es ++ lines.filter (fun l => !(hasTok warningTok l) && hasTok errorTok l)) := by
  induction lines with
  | nil => intro ws es; simp
  | cons l rest ih =>
    intro ws es
    cases hw : hasTok warningTok l
    · cases he : hasTok errorTok l
      · simp [classifyLine, hw, he, ih ws es]
      · simp [classifyLine, hw, he, ih ws (es ++ [l]), List.append_assoc]
    · simp [classifyLine, hw, ih (ws ++ [l]) es, List.append_assoc]

theorem mem_createDirectoriesFS (d : Str) (fs : FS) : d ∈ createDirectoriesFS d fs := by
  unfold createDirectoriesFS
  split
  · assumption
  · simp

theorem not_mem_cleanupSession (d : Str) (fs : FS) : d ∉ cleanupSession d fs := by
  unfold cleanupSession removeAllFS
  split
  · intro hmem
    rw [List.mem_filter] at hmem
    simp at hmem
  · assumption

theorem parentPath_main (w : Str) : parentPath (w ++ "/main".data) = w := by
  have h1 : ("/main".data) = ['/', 'm', 'a', 'i', 'n'] := rfl
  simp [parentPath, h1, List.reverse_append, List.dropWhile]

theorem work_path_ne_nil (sid m : Str) : (("temp/".data ++ sid) ++ m) ≠ [] := by
  intro h
  have h2 : ('t' : Char) :: (("emp/".data ++ sid) ++ m) = [] := h
  exact List.cons_ne_nil _ _ h2

theorem compile_fs_eq (code : Str) (opts : CompileOptions) (cfg : Config)
    (o : CompileOracle) (fs : FS) (h : o.dirCreateThrows = false) :
    (compile code opts cfg o fs).2 =
      createDirectoriesFS ("temp/".data ++ o.session_id) fs := by
  simp only [compile, h]
  simp only [Bool.false_eq_true, if_false]
  split
  · rfl
  · split
    · rfl
    · split <;> rfl

theorem compile_success_path (code : Str) (opts : CompileOptions) (cfg : Config)
    (o : CompileOracle) (fs : FS) :
    (compile code opts cfg o fs).1.success = true →
      (compile code opts cfg o fs).1.executable_path =
        ("temp/".data ++ o.session_id) ++ "/main".data := by
  cases hd : o.dirCreateThrows with
  | true => intro h; simp [compile, hd] at h
  | false =>
    cases hf : o.fileOpenOk with
    | false => intro h; simp [compile, hd, hf] at h
    | true =>
      cases hp : o.procThrows with
      | true => intro h; simp [compile, hd, hf, hp] at h
      | false =>
        simp only [compile, hd, hf, hp]
        simp only [Bool.false_eq_true, Bool.true_eq_false, if_false]
        split
        · intro _; rfl
        · intro h; simp at h

theorem buildCompileCommand_isEmpty (a b c d e : Str) (f : Bool)
    (g : List Str) (cfg : Config) :
    (buildCompileCommand a b c d e f g cfg).isEmpty = false := by
  unfold buildCompileCommand
  split <;> rfl

theorem executeProcess_normal (args : List Str) (t : Int) (o : ProcOracle)
    (h1 : args.isEmpty = false) (h2 : o.pipesOk = true) (h3 : o.forkOk = true)
    (h4 : o.waitFailed = false) :
    (executeProcess args t o).1 =
      { exit_code := Int.ofNat (WEXITSTATUS o.status),
        stdout := o.childStdout, stderr := o.childStderr } := by
  simp [executeProcess, h1, h2, h3, h4]

/-- C8: for every CompilationResult returned by compile, the artifact path
(executable_path) is populated (non-empty) if and only if success is true;
every failure path, including the internal-exception paths, leaves the
artifact path empty. -/
theorem C8_artifact_iff_success (code : Str) (opts : CompileOptions)
    (cfg : Config) (o : CompileOracle) (fs : FS) :
    (compile code opts cfg o fs).1.executable_path ≠ [] ↔
      (compile code opts cfg o fs).1.success = true := by
  cases hd : o.dirCreateThrows with
  | true => simp [compile, hd]
  | false =>
    cases hf : o.fileOpenOk with
    | false => simp [compile, hd, hf]
    | true =>
      cases hp : o.procThrows with
      | true => simp [compile, hd, hf, hp]
      | false =>
        simp only [compile, hd, hf, hp]
        simp only [Bool.false_eq_true, Bool.true_eq_false, if_false]
        split
        · exact iff_of_true (work_path_ne_nil o.session_id ("/main".data)) rfl
        · simp

/-- C9: calling the process runner with an empty argument vector returns the
default ProcessResult (exit_code -1, empty stdout and stderr) and an empty
event trace, so no child process is spawned and the runner is total even
when the non-empty-argv precondition is violated. -/
theorem C9_empty_args_total (t : Int) (o : ProcOracle) :
    executeProcess [] t o = ({ exit_code := -1 }, []) ∧
      Event.forkCall ∉ (executeProcess [] t o).2 := by
  refine ⟨rfl, ?_⟩
  intro h
  simp [executeProcess] at h

/-- C1 counterexample: on the timeout path (waitpid failure) for a concrete
run, the runner reports exit_code -1 and sends SIGTERM, but never sends
SIGKILL — refuting the claim that after the termination signal and a grace
interval the child is forcibly killed. -/
theorem C1_counterexample :
    (executeProcess ["/tmp/loop".data] 1 procTimedOut).1.exit_code = -1 ∧
    Event.sendSignal Sig.SIGTERM ∈ (executeProcess ["/tmp/loop".data] 1 procTimedOut).2 ∧
    Event.sendSignal Sig.SIGKILL ∉ (executeProcess ["/tmp/loop".data] 1 procTimedOut).2 := by
  decide

/-- C1 (amended): for every process run whose child has not exited by the
timeout deadline (the waitpid-failure path), the runner sends the child one
termination signal (SIGTERM) and immediately reaps it — with no grace
interval and no forced kill — and the returned ProcessResult reports
exit_code = -1 rather than the call blocking indefinitely. -/
theorem C1_timeout_single_sigterm (args : List Str) (t : Int) (o : ProcOracle)
    (h1 : args.isEmpty = false) (h2 : o.pipesOk = true) (h3 : o.forkOk = true)
    (h4 : o.waitFailed = true) :
    (executeProcess args t o).1.exit_code = -1 ∧
    (executeProcess args t o).2 =
      [Event.pipeCall, Event.forkCall, Event.setAlarm t, Event.waitChild,
       Event.cancelAlarm, Event.sendSignal Sig.SIGTERM, Event.waitChild,
       Event.readPipe PipeKind.stdoutPipe, Event.readPipe PipeKind.stderrPipe] ∧
    Event.sendSignal Sig.SIGKILL ∉ (executeProcess args t o).2 := by
  have e1 : executeProcess args t o =
      ({ exit_code := -1, stdout := o.childStdout, stderr := o.childStderr },
       [Event.pipeCall, Event.forkCall, Event.setAlarm t, Event.waitChild,
        Event.cancelAlarm, Event.sendSignal Sig.SIGTERM, Event.waitChild,
        Event.readPipe PipeKind.stdoutPipe, Event.readPipe PipeKind.stderrPipe]) := by
    simp [executeProcess, h1, h2, h3, h4]
  rw [e1]
  refine ⟨rfl, rfl, ?_⟩
  simp

/-- C1 witness: the amended timeout behaviour at a concrete run. -/
theorem C1_timeout_single_sigterm_witness :
    (["/tmp/loop".data] : List Str).isEmpty = false ∧
    procTimedOut.pipesOk = true ∧
    procTimedOut.forkOk = true ∧
    procTimedOut.waitFailed = true ∧
    ((executeProcess ["/tmp/loop".data] 1 procTimedOut).1.exit_code = -1 ∧
     (executeProcess ["/tmp/loop".data] 1 procTimedOut).2 =
       [Event.pipeCall, Event.forkCall, Event.setAlarm 1, Event.waitChild,
        Event.cancelAlarm, Event.sendSignal Sig.SIGTERM, Event.waitChild,
        Event.readPipe PipeKind.stdoutPipe, Event.readPipe PipeKind.stderrPipe] ∧
     Event.sendSignal Sig.SIGKILL ∉ (executeProcess ["/tmp/loop".data] 1 procTimedOut).2) :=
  ⟨rfl, rfl, rfl, rfl,
   C1_timeout_single_sigterm ["/tmp/loop".data] 1 procTimedOut rfl rfl rfl rfl⟩

/-- C7 counterexample: the diagnostic line a warning: b error: c contains
the token error: yet parseCompilerMessages places it only in the warnings
list and not in the errors list, refuting the claim that each line
containing error: is placed in errors. -/
theorem C7_counterexample :
    hasTok errorTok ("a warning: b error: c".data) = true ∧
    (parseCompilerMessages ("a warning: b error: c".data)).2 = [] ∧
    (parseCompilerMessages ("a warning: b error: c".data)).1 =
      ["a warning: b error: c".data] := by
  decide

/-- C7 (amended): for every compile invocation on which the environment does
not fault, the raw combined output is the compiler run's stderr followed by
its stdout; the warnings are exactly the lines of that output containing the
token warning:, the errors are exactly the lines containing error: but not
warning: (a line containing both tokens is classified only as a warning),
all other lines being retained only in the raw combined output; and success
is true exactly when the compiler exit status is 0, independent of how many
lines matched either token. -/
theorem C7_classification (code : Str) (opts : CompileOptions) (cfg : Config)
    (o : CompileOracle) (fs : FS)
    (h1 : o.dirCreateThrows = false) (h2 : o.fileOpenOk = true)
    (h3 : o.procThrows = false) (h4 : o.proc.pipesOk = true)
    (h5 : o.proc.forkOk = true) (h6 : o.proc.waitFailed = false) :
    (compile code opts cfg o fs).1.compiler_output =
        o.proc.childStderr ++ o.proc.childStdout ∧
    (compile code opts cfg o fs).1.warnings =
        (getlines (o.proc.childStderr ++ o.proc.childStdout)).filter
          (fun l => hasTok warningTok l) ∧
    (compile code opts cfg o fs).1.errors =
        (getlines (o.proc.childStderr ++ o.proc.childStdout)).filter
          (fun l => !(hasTok warningTok l) && hasTok errorTok l) ∧
    ((compile code opts cfg o fs).1.success = true ↔
        WEXITSTATUS o.proc.status = 0) := by
  simp only [compile, h1, h2, h3]
  simp only [Bool.false_eq_true, Bool.true_eq_false, if_false]
  rw [executeProcess_normal _ _ _
    (buildCompileCommand_isEmpty _ _ _ _ _ _ _ _) h4 h5 h6]
  by_cases hw : WEXITSTATUS o.proc.status = 0
  · simp [hw, parseCompilerMessages, classifyLine_foldl]
  · have hw2 : ¬ (Int.ofNat (WEXITSTATUS o.proc.status) = (0 : Int)) := by
      simpa using hw
    simp [hw, hw2, parseCompilerMessages, classifyLine_foldl]

/-- C7 witness: the amended classification at a concrete compile whose
compiler prints one warning line and one error line and exits with 0. -/
theorem C7_classification_witness :
    (compOracle ("abcd".data)
        (procExitWith 0 [] ("a warning: b\nc error: d\n".data))).dirCreateThrows
      = false ∧
    (compOracle ("abcd".data)
        (procExitWith 0 [] ("a warning: b\nc error: d\n".data))).fileOpenOk
      = true ∧
    (compOracle ("abcd".data)
        (procExitWith 0 [] ("a warning: b\nc error: d\n".data))).procThrows
      = false ∧
    ((compile sampleCode {} (sampleCfg false)
        (compOracle ("abcd".data)
          (procExitWith 0 [] ("a warning: b\nc error: d\n".data))) []).1.compiler_output =
        ("a warning: b\nc error: d\n".data) ++ [] ∧
     (compile sampleCode {} (sampleCfg false)
        (compOracle ("abcd".data)
          (procExitWith 0 [] ("a warning: b\nc error: d\n".data))) []).1.warnings =
        (getlines (("a warning: b\nc error: d\n".data) ++ [])).filter
          (fun l => hasTok warningTok l) ∧
     (compile sampleCode {} (sampleCfg false)
        (compOracle ("abcd".data)
          (procExitWith 0 [] ("a warning: b\nc error: d\n".data))) []).1.errors =
        (getlines (("a warning: b\nc error: d\n".data) ++ [])).filter
          (fun l => !(hasTok warningTok l) && hasTok errorTok l) ∧
     ((compile sampleCode {} (sampleCfg false)
        (compOracle ("abcd".data)
          (procExitWith 0 [] ("a warning: b\nc error: d\n".data))) []).1.success = true ↔
        WEXITSTATUS (procExitWith 0 [] ("a warning: b\nc error: d\n".data)).status = 0)) :=
  ⟨rfl, rfl, rfl,
   C7_classification sampleCode {} (sampleCfg false)
     (compOracle ("abcd".data)
       (procExitWith 0 [] ("a warning: b\nc error: d\n".data))) []
     rfl rfl rfl rfl rfl rfl⟩

/-- C5 counterexample: a run whose compilation fails leaves the session
directory temp/abcd on disk after execute returns, refuting the claim that
every exit path of the coordinator deletes the workspace. -/
theorem C5_counterexample :
    ("temp/abcd".data) ∈
      (execute sampleCode [] {} (sampleCfg false)
        (execOracle (compOracle ("abcd".data)
            (procExitWith 256 [] ("x.cpp:1:1: error: y".data)))
          (procExitWith 0 [] [])) []).fs := by
  decide

/-- C5 (amended): the session workspace directory is removed only on the
path of execute on which compilation succeeded and no exception occurred
before cleanup; on the compile-failure early return and on the
post-execution exception path the directory is left on disk. -/
theorem C5_cleanup_only_on_success (code input : Str) (opts : CompileOptions)
    (cfg : Config) (o : ExecuteOracle) (fs : FS)
    (h1 : o.comp.dirCreateThrows = false) :
    (("temp/".data ++ o.comp.session_id) ∈ (execute code input opts cfg o fs).fs ↔
      ¬ ((compile code opts cfg o.comp fs).1.success = true ∧
         o.execThrows = false)) := by
  cases hs : (compile code opts cfg o.comp fs).1.success with
  | false =>
    simp only [execute, hs, Bool.false_eq_true, Bool.true_eq_false, if_true]
    rw [compile_fs_eq code opts cfg o.comp fs h1]
    simp [mem_createDirectoriesFS]
  | true =>
    cases ht : o.execThrows with
    | true =>
      simp only [execute, hs, ht, Bool.false_eq_true, Bool.true_eq_false,
        if_false, if_true]
      rw [compile_fs_eq code opts cfg o.comp fs h1]
      simp [mem_createDirectoriesFS]
    | false =>
      have hpath := compile_success_path code opts cfg o.comp fs hs
      simp only [execute, hs, ht, Bool.false_eq_true, Bool.true_eq_false,
        if_false, if_true]
      rw [hpath, parentPath_main]
      simp [not_mem_cleanupSession]

/-- C5 witness: the amended cleanup characterisation at a concrete run whose
compilation succeeds and whose cleanup therefore removes the directory. -/
theorem C5_cleanup_only_on_success_witness :
    (execOracle (compOracle ("abcd".data) (procExitWith 0 [] []))
        (procExitWith 0 [] [])).comp.dirCreateThrows = false ∧
    (("temp/".data ++ (execOracle (compOracle ("abcd".data) (procExitWith 0 [] []))
          (procExitWith 0 [] [])).comp.session_id) ∈
        (execute sampleCode [] {} (sampleCfg false)
          (execOracle (compOracle ("abcd".data) (procExitWith 0 [] []))
            (procExitWith 0 [] [])) []).fs ↔
      ¬ ((compile sampleCode {} (sampleCfg false)
            (execOracle (compOracle ("abcd".data) (procExitWith 0 [] []))
              (procExitWith 0 [] [])).comp []).1.success = true ∧
         (execOracle (compOracle ("abcd".data) (procExitWith 0 [] []))
            (procExitWith 0 [] [])).execThrows = false)) :=
  ⟨rfl, C5_cleanup_only_on_success sampleCode [] {} (sampleCfg false)
    (execOracle (compOracle ("abcd".data) (procExitWith 0 [] []))
      (procExitWith 0 [] [])) [] rfl⟩

/-- C6: for every run whose compilation fails, execute returns success =
false with an error message that starts with Compilation failed and contains
every compile diagnostic, and the execution stage is never invoked. -/
theorem C6_compile_failure_skips_execution (code input : Str)
    (opts : CompileOptions) (cfg : Config) (o : ExecuteOracle) (fs : FS)
    (h : (compile code opts cfg o.comp fs).1.success = false) :
    (execute code input opts cfg o fs).execCalled = false ∧
    (execute code input opts cfg o fs).result.success = false ∧
    startsWithTok ("Compilation failed".data)
      (execute code input opts cfg o fs).result.error_message = true ∧
    ((compile code opts cfg o.comp fs).1.errors).all
      (fun e => hasTok e (execute code input opts cfg o fs).result.error_message)
      = true := by
  have e1 : execute code input opts cfg o fs =
      { result :=
          { success := false,
            error_message := ((compile code opts cfg o.comp fs).1.errors).foldl
              (fun m e => m ++ "\n".data ++ e) ("Compilation failed".data) },
        fs := (compile code opts cfg o.comp fs).2, execCalled := false } := by
    simp [execute, h]
  rw [e1]
  refine ⟨rfl, rfl, ?_, ?_⟩
  · exact startsWithTok_errFold _ _ _ (startsWithTok_self _)
  · rw [List.all_eq_true]
    intro e he
    exact mem_hasTok_errFold e _ _ he

/-- C6 witness: the compile-failure path at a concrete run whose compiler
exits with status 1 and prints one error line. -/
theorem C6_compile_failure_skips_execution_witness :
    (compile sampleCode {} (sampleCfg false)
        (execOracle (compOracle ("abcd".data)
            (procExitWith 256 [] ("x.cpp:1:1: error: y".data)))
          (procExitWith 0 [] [])).comp []).1.success = false ∧
    ((execute sampleCode [] {} (sampleCfg false)
        (execOracle (compOracle ("abcd".data)
            (procExitWith 256 [] ("x.cpp:1:1: error: y".data)))
          (procExitWith 0 [] [])) []).execCalled = false ∧
     (execute sampleCode [] {} (sampleCfg false)
        (execOracle (compOracle ("abcd".data)
            (procExitWith 256 [] ("x.cpp:1:1: error: y".data)))
          (procExitWith 0 [] [])) []).result.success = false ∧
     startsWithTok ("Compilation failed".data)
       (execute sampleCode [] {} (sampleCfg false)
         (execOracle (compOracle ("abcd".data)
             (procExitWith 256 [] ("x.cpp:1:1: error: y".data)))
           (procExitWith 0 [] [])) []).result.error_message = true ∧
     ((compile sampleCode {} (sampleCfg false)
         (execOracle (compOracle ("abcd".data)
             (procExitWith 256 [] ("x.cpp:1:1: error: y".data)))
           (procExitWith 0 [] [])).comp []).1.errors).all
       (fun e => hasTok e
         (execute sampleCode [] {} (sampleCfg false)
           (execOracle (compOracle ("abcd".data)
               (procExitWith 256 [] ("x.cpp:1:1: error: y".data)))
             (procExitWith 0 [] [])) []).result.error_message) = true) :=
  ⟨by decide,
   C6_compile_failure_skips_execution sampleCode [] {} (sampleCfg false)
     (execOracle (compOracle ("abcd".data)
         (procExitWith 256 [] ("x.cpp:1:1: error: y".data)))
       (procExitWith 0 [] [])) [] (by decide)⟩

/-- C10: for every run whose compilation succeeded and on which no internal
exception fires, when the compiled program terminates with a nonzero exit
status and empty stderr the error message is Program exited with code
followed by the decimal exit code, and when the exit status is 0 or stderr
is non-empty the error message is left empty. -/
theorem C10_error_message (code input : Str) (opts : CompileOptions)
    (cfg : Config) (o : ExecuteOracle) (fs : FS)
    (h1 : (compile code opts cfg o.comp fs).1.success = true)
    (h2 : o.execThrows = false)
    (h3 : o.exec.pipesOk = true) (h4 : o.exec.forkOk = true)
    (h5 : o.exec.waitFailed = false) :
    (execute code input opts cfg o fs).result.error_message =
      (if WEXITSTATUS o.exec.status = 0 ∨ o.exec.childStderr ≠ [] then []
       else "Program exited with code ".data ++
         intToStr (Int.ofNat (WEXITSTATUS o.exec.status))) := by
  have hex : ∀ p : Str,
      (executeProcess [p] cfg.execution.execution_timeout o.exec).1 =
        { exit_code := Int.ofNat (WEXITSTATUS o.exec.status),
          stdout := o.exec.childStdout, stderr := o.exec.childStderr } :=
    fun p => executeProcess_normal [p] _ o.exec rfl h3 h4 h5
  by_cases hw : WEXITSTATUS o.exec.status = 0 <;>
    by_cases hst : o.exec.childStderr = [] <;>
      cases hsb : cfg.execution.sandbox_enabled <;>
        simp [execute, executeInSandbox, executeDirectly, h1, h2, hsb, hex,
          hw, hst, beq_iff_eq]

/-- C10 witness: the silent-nonzero-exit message at a concrete run whose
program exits with status 3 and prints nothing on stderr. -/
theorem C10_error_message_witness :
    (compile sampleCode {} (sampleCfg false)
        (execOracle (compOracle ("abcd".data) (procExitWith 0 [] []))
          (procExitWith 768 [] [])).comp []).1.success = true ∧
    (execOracle (compOracle ("abcd".data) (procExitWith 0 [] []))
        (procExitWith 768 [] [])).execThrows = false ∧
    (execOracle (compOracle ("abcd".data) (procExitWith 0 [] []))
        (procExitWith 768 [] [])).exec.pipesOk = true ∧
    (execOracle (compOracle ("abcd".data) (procExitWith 0 [] []))
        (procExitWith 768 [] [])).exec.forkOk = true ∧
    (execOracle (compOracle ("abcd".data) (procExitWith 0 [] []))
        (procExitWith 768 [] [])).exec.waitFailed = false ∧
    (execute sampleCode [] {} (sampleCfg false)
        (execOracle (compOracle ("abcd".data) (procExitWith 0 [] []))
          (procExitWith 768 [] [])) []).result.error_message =
      (if WEXITSTATUS (execOracle (compOracle ("abcd".data) (procExitWith 0 [] []))
            (procExitWith 768 [] [])).exec.status = 0 ∨
          (execOracle (compOracle ("abcd".data) (procExitWith 0 [] []))
            (procExitWith 768 [] [])).exec.childStderr ≠ [] then []
       else "Program exited with code ".data ++
         intToStr (Int.ofNat (WEXITSTATUS
           (execOracle (compOracle ("abcd".data) (procExitWith 0 [] []))
             (procExitWith 768 [] [])).exec.status))) :=
  ⟨by decide, rfl, rfl, rfl, rfl,
   C10_error_message sampleCode [] {} (sampleCfg false)
     (execOracle (compOracle ("abcd".data) (procExitWith 0 [] []))
       (procExitWith 768 [] [])) [] (by decide) rfl rfl rfl rfl⟩

/-- C4 counterexample: two runs of execute identical except that the sandbox
is enabled in one configuration and disabled in the other produce literally
equal outcomes, so the returned outcome carries no boolean flag (nor any
other field) recording that degraded isolation rather than the sandbox was
actually used. -/
theorem C4_counterexample :
    execute sampleCode [] {} (sampleCfg true)
      (execOracle (compOracle ("abcd".data) (procExitWith 0 [] []))
        (procExitWith 768 ("hi".data) [])) [] =
    execute sampleCode [] {} (sampleCfg false)
      (execOracle (compOracle ("abcd".data) (procExitWith 0 [] []))
        (procExitWith 768 ("hi".data) [])) [] := by
  decide

/-- C4 (amended): whenever the sandbox path is selected, executeInSandbox
unconditionally falls back to direct host execution through the same process
runner under the same timeout contract, and the whole outcome of execute is
identical whether the sandbox is enabled or not — degraded isolation is not
recorded by any flag on the outcome. -/
theorem C4_fallback_unconditional (code input : Str) (opts : CompileOptions)
    (ccfg : CompilerConfig) (ecfg : ExecutionConfig) (o : ExecuteOracle)
    (fs : FS) (p : Str) (po : ProcOracle) :
    executeInSandbox ⟨ccfg, ecfg⟩ p input po =
      executeDirectly ⟨ccfg, ecfg⟩ p input po ∧
    execute code input opts ⟨ccfg, { ecfg with sandbox_enabled := true }⟩ o fs =
      execute code input opts ⟨ccfg, { ecfg with sandbox_enabled := false }⟩ o fs := by
  constructor
  · rfl
  · rfl

/-- C2: evaluation at the failing input of the stdin claim: the direct
execution path returns an identical result and trace whether the stdin
payload is "hi" or empty, its trace contains no stdin-write event, and
executeProcess never creates a stdin pipe — the child never observes the
payload, contradicting the documented stdin contract (input handling is an
unimplemented TODO in the source). -/
theorem C2_stdin_never_delivered :
    executeDirectly (sampleCfg false) ("/tmp/prog".data) ("hi".data)
        (procExitWith 0 [] []) =
      executeDirectly (sampleCfg false) ("/tmp/prog".data) []
        (procExitWith 0 [] []) ∧
    Event.writeStdin ∉
      (executeDirectly (sampleCfg false) ("/tmp/prog".data) ("hi".data)
        (procExitWith 0 [] [])).2 ∧
    PipeKind.stdinPipe ∉ pipesCreated := by
  decide

/-- C3: evaluation at the failing input of the resource-limit claim: the
forked child installs no rlimit before execvp, the sandbox path (whose
docker memory and cpu flags are built and then discarded) is identical to
the direct path, and the returned result reports no resource usage — its
memory and cpu fields stay 0 — so no kernel-enforced ceiling exists and no
resource-violation flag can be set. -/
theorem C3_no_kernel_limits :
    ChildAction.setrlimitCall ∉ childActions ∧
    executeInSandbox (sampleCfg true) ("/tmp/prog".data) [] (procExitWith 0 [] []) =
      executeDirectly (sampleCfg true) ("/tmp/prog".data) [] (procExitWith 0 [] []) ∧
    (executeProcess [("/tmp/prog".data)] 5 (procExitWith 0 [] [])).1.memory_usage_kb = 0 ∧
    (executeProcess [("/tmp/prog".data)] 5 (procExitWith 0 [] [])).1.cpu_time_ms = 0 := by
  decide

end cpp_mastery
